import Mathlib

/-!
Shallow embedding of the sensor-acquisition and consensus pipeline of
app.py (Smart Black Pepper Guardian).  Machine floats are modelled as
rationals; the random draws, the HTTP response and the Modbus transport
are passed in explicitly as environment data, so every operation of the
source becomes a total Lean function on that data.
-/

namespace BlackPepper

/-- Canonical sensor record: the data dict of get_sensor_data (app.py
lines 56-60), initialised with all seven fields at 0.0. -/
structure Reading where
  temperature : ℚ
  moisture : ℚ
  nitrogen : ℚ
  phosphorus : ℚ
  potassium : ℚ
  pH : ℚ
  humidity : ℚ
deriving DecidableEq

/-- Initial value of the data dict (all fields 0.0, app.py lines 56-60). -/
def initData : Reading :=
  { temperature := 0, moisture := 0, nitrogen := 0, phosphorus := 0,
    potassium := 0, pH := 0, humidity := 0 }

/-! ## Python round: banker's rounding (round-half-even) on rationals -/

/-- Round to the nearest integer, ties to the even integer, as Python's
built-in round does. -/
def roundHalfEven (q : ℚ) : ℤ :=
  if q - ⌊q⌋ < 1/2 then ⌊q⌋
  else if q - ⌊q⌋ > 1/2 then ⌊q⌋ + 1
  else if ⌊q⌋ % 2 = 0 then ⌊q⌋ else ⌊q⌋ + 1

/-- Python round(q, nd) modelled on rationals. -/
def pyRound (q : ℚ) (nd : ℕ) : ℚ :=
  (roundHalfEven (q * 10 ^ nd) : ℚ) / 10 ^ nd

/-! ## Simulation Mode (app.py lines 62-72)

Each call of random.uniform(a, b) yields some rational in the closed
interval from a to b; the seven draws of one acquisition are passed in
as a SimDraw record, and the adapter applies the source's per-field
round call to each draw.  The time.sleep latency has no data effect and
is not modelled. -/

/-- One tuple of raw uniform draws for a simulated acquisition. -/
structure SimDraw where
  temperature : ℚ
  moisture : ℚ
  nitrogen : ℚ
  phosphorus : ℚ
  potassium : ℚ
  pH : ℚ
  humidity : ℚ
deriving DecidableEq

/-- Simulation-mode body of get_sensor_data: round each uniform draw to
the source's digit count (1,1,0,0,0,2,1) and return the dict. -/
def get_sensor_data_sim (d : SimDraw) : Reading :=
  { temperature := pyRound d.temperature 1
    moisture := pyRound d.moisture 1
    nitrogen := pyRound d.nitrogen 0
    phosphorus := pyRound d.phosphorus 0
    potassium := pyRound d.potassium 0
    pH := pyRound d.pH 2
    humidity := pyRound d.humidity 1 }

/-! ## ThingSpeak Cloud mode (app.py lines 74-111) -/

/-- One ThingSpeak feed entry: a flat mapping from field identifiers
(field1 .. field8) to string values, modelled as an association list;
dict .get returning None for an absent key becomes a none lookup. -/
def Sample : Type := List (String × String)

/-- Python dict .get on a feed entry. -/
def sampleGet (latest : Sample) (k : String) : Option String :=
  (List.find? (fun kv => kv.fst == k) latest).map (fun kv => kv.snd)

/-- Value of a digit string, most significant first. -/
def digitsVal (cs : List Char) : ℕ :=
  cs.foldl (fun n c => 10 * n + (c.toNat - 48)) 0

/-- Python float(s) on a plain decimal string literal: optional sign,
integer digits, optional fractional part.  A string that is not such a
numeral (for example "n/a") raises ValueError in the source, modelled
here as none. -/
def pyFloat (s : String) : Option ℚ :=
  let cs := s.toList
  let signNeg : Bool := match cs with
    | '-' :: _ => true
    | _ => false
  let body : List Char := match cs with
    | '-' :: r => r
    | '+' :: r => r
    | r => r
  let ip := body.takeWhile Char.isDigit
  let rest := body.dropWhile Char.isDigit
  let mag : Option ℚ :=
    match rest with
    | [] => if ip.isEmpty then none else some (digitsVal ip : ℚ)
    | '.' :: fr =>
      let fp := fr.takeWhile Char.isDigit
      let rest2 := fr.dropWhile Char.isDigit
      if rest2.isEmpty && !(ip.isEmpty && fp.isEmpty) then
        some ((digitsVal ip : ℚ) + (digitsVal fp : ℚ) / 10 ^ fp.length)
      else none
    | _ => none
  mag.map (fun q => if signNeg then -q else q)

/-- User-defined field mapping (the ts_mapping dict with its seven
canonical keys, app.py lines 190-196). -/
structure Mapping where
  temperature : String
  moisture : String
  nitrogen : String
  phosphorus : String
  potassium : String
  pH : String
  humidity : String
deriving DecidableEq

/-- Evaluation of float(latest.get(key) or 0) for one canonical field
(app.py lines 92-98): an absent key gives None, so the value defaults
to 0.0; an empty string is falsy and also defaults to 0.0; any other
string goes through float, whose ValueError (none here) escapes to the
enclosing except clause. -/
def cloudFieldVal (latest : Sample) (key : String) : Option ℚ :=
  match sampleGet latest key with
  | none => some 0
  | some s => if s = "" then some 0 else pyFloat s

/-- ThingSpeak-mode body of get_sensor_data (app.py lines 81-107),
given the parsed feeds array of a successful 2xx response.  An empty
feeds array takes the else branch and returns None; with a non-empty
array and a truthy mapping the seven fields are read through
cloudFieldVal, and a float failure on any of them aborts the whole
acquisition (the except clause returns None); with an empty (falsy)
mapping only Temperature is filled from field1 as in the fallback
branch. -/
def get_sensor_data_cloud (feeds : List Sample) (mapping : Option Mapping) :
    Option Reading :=
  match feeds.getLast? with
  | none => none
  | some latest =>
    match mapping with
    | some mp => do
      let t ← cloudFieldVal latest mp.temperature
      let mo ← cloudFieldVal latest mp.moisture
      let n ← cloudFieldVal latest mp.nitrogen
      let p ← cloudFieldVal latest mp.phosphorus
      let k ← cloudFieldVal latest mp.potassium
      let ph ← cloudFieldVal latest mp.pH
      let h ← cloudFieldVal latest mp.humidity
      some { temperature := t, moisture := mo, nitrogen := n, phosphorus := p,
             potassium := k, pH := ph, humidity := h }
    | none =>
      (cloudFieldVal latest "field1").map
        (fun t => { initData with temperature := t })

/-! ## Live Sensor Mode (app.py lines 113-166) -/

/-- Transport environment for one live acquisition: whether the
minimalmodbus import succeeds, whether the Instrument constructor
(which opens the serial port) succeeds, and for each register address
the outcome of read_register as a raw unsigned register value (none
models a raised exception, for example a timeout). -/
structure LiveEnv where
  driverAvailable : Bool
  openOk : Bool
  register : ℕ → Option ℕ

/-- Live-mode body of get_sensor_data.  The first component is the
returned value (the dict on success, None on ImportError, constructor
failure, or any read exception); the second component records whether
the finally clause called instrument.serial.close(), which it does
exactly when the instrument was constructed (otherwise instrument is
still None and the guard skips the close).  The seven reads at
addresses 0-6 use the source's decimal counts: 1 for Temperature,
Moisture, pH, Humidity and 0 for Nitrogen, Phosphorus, Potassium. -/
def get_sensor_data_live (env : LiveEnv) : Option Reading × Bool :=
  if env.driverAvailable = false then (none, false)
  else if env.openOk = false then (none, false)
  else
    let r : Option Reading := do
      let t ← env.register 0
      let mo ← env.register 1
      let n ← env.register 2
      let p ← env.register 3
      let k ← env.register 4
      let ph ← env.register 5
      let h ← env.register 6
      some { temperature := (t : ℚ) / 10, moisture := (mo : ℚ) / 10,
             nitrogen := (n : ℚ), phosphorus := (p : ℚ), potassium := (k : ℚ),
             pH := (ph : ℚ) / 10, humidity := (h : ℚ) / 10 }
    (r, true)

/-! ## Dispatcher (get_sensor_data, app.py lines 51-166) -/

/-- Caller-supplied configuration: the parameters of get_sensor_data. -/
structure Config where
  com_port : String
  baudrate : ℕ
  slave_id : ℕ
  function_code : ℕ
  ts_channel : String
  ts_key : String
  mapping : Option Mapping

/-- External world of one acquisition: the simulation draws, the cloud
request outcome (cloudOk false models a raised request exception or a
non-2xx raise_for_status) with its parsed feeds array, and the Modbus
transport. -/
structure Env where
  sim : SimDraw
  cloudOk : Bool
  cloudFeeds : List Sample
  live : LiveEnv

/-- Which branch of the if/elif chain of get_sensor_data a mode string
selects; fallthrough is the implicit None return of a Python function
whose chain matches no branch. -/
inductive AdapterChoice where
  | sim
  | cloud
  | live
  | fallthrough
deriving DecidableEq

/-- Branch selection of the if/elif chain on the mode string. -/
def dispatchChoice (mode : String) : AdapterChoice :=
  if mode = "Simulation Mode" then AdapterChoice.sim
  else if mode = "ThingSpeak Cloud" then AdapterChoice.cloud
  else if mode = "Live Sensor Mode" then AdapterChoice.live
  else AdapterChoice.fallthrough

/-- get_sensor_data: dispatch on the mode string to one adapter body;
a mode outside the three tested strings reaches the end of the Python
function and implicitly returns None. -/
def get_sensor_data (mode : String) (cfg : Config) (env : Env) :
    Option Reading :=
  if mode = "Simulation Mode" then
    some (get_sensor_data_sim env.sim)
  else if mode = "ThingSpeak Cloud" then
    (if env.cloudOk then get_sensor_data_cloud env.cloudFeeds cfg.mapping
     else none)
  else if mode = "Live Sensor Mode" then
    (get_sensor_data_live env.live).fst
  else
    none

/-! ## Feature vector (run_dashboard_cycle, app.py lines 268-275) -/

/-- The input vector for the classifiers: six values in training order
Temperature, Moisture, Nitrogen, Phosphorus, Potassium, pH; Humidity
is excluded and every value passes through unchanged. -/
def input_data (sensor_vals : Reading) : List ℚ :=
  [sensor_vals.temperature, sensor_vals.moisture, sensor_vals.nitrogen,
   sensor_vals.phosphorus, sensor_vals.potassium, sensor_vals.pH]

/-! ## Consensus (run_dashboard_cycle, app.py lines 291-292)

Counter(votes).most_common(1)[0][0]: a Counter iterates its keys in
first-insertion order, and most_common(1) (heapq.nlargest over the
items, which is stable like a reverse sort) returns the earliest-
inserted key of maximal count. -/

/-- Counter key insertion: a new key is appended at the end, an
existing key keeps its position. -/
def insertKey (ks : List String) (x : String) : List String :=
  if x ∈ ks then ks else ks ++ [x]

/-- The keys of Counter(votes) in first-occurrence order. -/
def counterKeys (votes : List String) : List String :=
  votes.foldl insertKey []

/-- Multiplicity of a label among the votes. -/
def countVotes (votes : List String) (x : String) : ℕ :=
  (votes.filter (fun v => v == x)).length

/-- One step of selecting the maximal-count key: a later key replaces
the current best only on a strictly larger count, matching the
stability of heapq.nlargest. -/
def pickStep (votes : List String) (acc : Option String) (k : String) :
    Option String :=
  match acc with
  | none => some k
  | some b => if countVotes votes b < countVotes votes k then some k
              else some b

/-- most_common(1) head: the first key, in insertion order, whose count
no later key strictly exceeds. -/
def mostCommon1 (votes : List String) : Option String :=
  (counterKeys votes).foldl (pickStep votes) none

/-- The consensus of the three decoded predictions, in the source's
vote order Random Forest, XGBoost, SVM. -/
def consensus (rf_pred xgb_pred svm_pred : String) : String :=
  (mostCommon1 [rf_pred, xgb_pred, svm_pred]).getD ""

/-! ## Trend history (run_dashboard_cycle, app.py lines 312-320) -/

/-- The session-state history dict: four parallel lists N, P, pH and
time. -/
structure History where
  n : List ℚ
  p : List ℚ
  ph : List ℚ
  time : List String
deriving DecidableEq

/-- One history update: append the new sample to each list, then, if
the time list now holds more than 30 entries, pop the front entry of
every list (list.pop(0), modelled by tail). -/
def updateHistory (h : History) (sv : Reading) (t : String) : History :=
  let h1 : History :=
    { n := h.n ++ [sv.nitrogen], p := h.p ++ [sv.phosphorus],
      ph := h.ph ++ [sv.pH], time := h.time ++ [t] }
  if h1.time.length > 30 then
    { n := h1.n.tail, p := h1.p.tail, ph := h1.ph.tail, time := h1.time.tail }
  else h1

/-! ## Concrete instances used by witnesses and counterexamples -/

/-- The default field mapping of the sidebar UI: Temperature to field1
through Humidity to field7 (app.py lines 190-196). -/
def stdMapping : Mapping :=
  { temperature := "field1", moisture := "field2", nitrogen := "field3",
    phosphorus := "field4", potassium := "field5", pH := "field6",
    humidity := "field7" }

/-- A feed entry whose pH source value is the non-numeric string n/a
while the other six mapped fields hold numeric strings. -/
def sampleBadPH : Sample :=
  [("field1", "28"), ("field2", "55"), ("field3", "180"), ("field4", "40"),
   ("field5", "220"), ("field6", "n/a"), ("field7", "70")]

/-- A feed entry with no field1 entry (Temperature unresolved) and
numeric values for the other six mapped fields. -/
def sampleNoTemp : Sample :=
  [("field2", "55"), ("field3", "180"), ("field4", "40"),
   ("field5", "220"), ("field6", "6"), ("field7", "70")]

/-- A concrete configuration with the source's default sidebar values. -/
def exampleConfig : Config :=
  { com_port := "COM3", baudrate := 9600, slave_id := 1, function_code := 3,
    ts_channel := "3187265", ts_key := "", mapping := some stdMapping }

/-- A concrete acquisition environment. -/
def exampleEnv : Env :=
  { sim := { temperature := 28, moisture := 60, nitrogen := 170,
             phosphorus := 35, potassium := 220, pH := 13/2, humidity := 75 },
    cloudOk := true, cloudFeeds := [sampleNoTemp],
    live := { driverAvailable := true, openOk := true,
              register := fun i => some (100 + i) } }

/-- A full 30-entry trend history. -/
def histFull : History :=
  { n := List.replicate 30 0, p := List.replicate 30 0,
    ph := List.replicate 30 0, time := List.replicate 30 "10:00:00" }

/-! ## Theorems about the consensus step -/

/-- A selection step that yields some label either kept the accumulator
or moved to the new key. -/
theorem pickStep_eq_some (votes : List String) (acc : Option String)
    (k x : String) (h : pickStep votes acc k = some x) :
    acc = some x ∨ x = k := by
  cases acc with
  | none =>
    simp [pickStep] at h
    exact Or.inr h.symm
  | some b =>
    by_cases hc : countVotes votes b < countVotes votes k
    · simp [pickStep, hc] at h
      exact Or.inr h.symm
    · simp [pickStep, hc] at h
      exact Or.inl (by rw [h])

/-- The selected label of a fold of selection steps comes from the
initial accumulator or from the folded keys. -/
theorem pickFold_mem (votes : List String) :
    ∀ (ks : List String) (acc : Option String) (x : String),
      List.foldl (pickStep votes) acc ks = some x → acc = some x ∨ x ∈ ks := by
  intro ks
  induction ks with
  | nil => intro acc x h; exact Or.inl h
  | cons k ks ih =>
    intro acc x h
    rw [List.foldl_cons] at h
    rcases ih _ x h with h1 | h1
    · rcases pickStep_eq_some votes acc k x h1 with h2 | h2
      · exact Or.inl h2
      · exact Or.inr (by simp [h2])
    · exact Or.inr (List.mem_cons_of_mem _ h1)

/-- A fold of selection steps starting from a chosen label always
yields some label. -/
theorem pickFold_some (votes : List String) :
    ∀ (ks : List String) (b : String),
      ∃ x, List.foldl (pickStep votes) (some b) ks = some x := by
  intro ks
  induction ks with
  | nil => intro b; exact ⟨b, rfl⟩
  | cons k ks ih =>
    intro b
    rw [List.foldl_cons]
    by_cases hc : countVotes votes b < countVotes votes k
    · simpa [pickStep, hc] using ih k
    · simpa [pickStep, hc] using ih b

/-- Inserting a key into the Counter key list adds no key but the
inserted one. -/
theorem insertKey_mem {ks : List String} {x y : String}
    (h : y ∈ insertKey ks x) : y ∈ ks ∨ y = x := by
  unfold insertKey at h
  by_cases hx : x ∈ ks
  · rw [if_pos hx] at h
    exact Or.inl h
  · rw [if_neg hx] at h
    rcases List.mem_append.mp h with h1 | h1
    · exact Or.inl h1
    · exact Or.inr (by simpa using h1)

/-- Every key accumulated from the votes is an initial key or a vote. -/
theorem foldl_insertKey_mem :
    ∀ (vs acc : List String) (y : String),
      y ∈ List.foldl insertKey acc vs → y ∈ acc ∨ y ∈ vs := by
  intro vs
  induction vs with
  | nil => intro acc y h; exact Or.inl h
  | cons v vs ih =>
    intro acc y h
    rw [List.foldl_cons] at h
    rcases ih _ y h with h1 | h1
    · rcases insertKey_mem h1 with h2 | h2
      · exact Or.inl h2
      · exact Or.inr (by simp [h2])
    · exact Or.inr (List.mem_cons_of_mem _ h1)

/-- Accumulating keys never drops the head of the accumulator. -/
theorem foldl_insertKey_cons :
    ∀ (vs : List String) (a : String) (acc : List String),
      ∃ t, List.foldl insertKey (a :: acc) vs = a :: t := by
  intro vs
  induction vs with
  | nil => intro a acc; exact ⟨acc, rfl⟩
  | cons v vs ih =>
    intro a acc
    rw [List.foldl_cons]
    unfold insertKey
    by_cases hv : v ∈ a :: acc
    · rw [if_pos hv]
      exact ih a acc
    · rw [if_neg hv]
      rw [List.cons_append]
      exact ih a (acc ++ [v])

/-- The key Counter.most_common(1) returns is one of the votes. -/
theorem mostCommon1_mem (votes : List String) (x : String)
    (h : mostCommon1 votes = some x) : x ∈ votes := by
  unfold mostCommon1 at h
  rcases pickFold_mem votes (counterKeys votes) none x h with h1 | h1
  · exact absurd h1 (by simp)
  · rcases foldl_insertKey_mem votes [] x h1 with h2 | h2
    · exact absurd h2 (by simp)
    · exact h2

/-- C1: when the three decoded labels are pairwise distinct, the Counter
tie-break picks the first-inserted key, which is the Random Forest
prediction; and since the consensus is a pure function of the three
labels, repeated invocation on the same labels gives the same result. -/
theorem c1_tiebreak_is_rf (rf xgb svm : String)
    (h1 : rf ≠ xgb) (h2 : rf ≠ svm) (h3 : xgb ≠ svm) :
    consensus rf xgb svm = rf := by
  simp [consensus, mostCommon1, pickStep, counterKeys, insertKey, countVotes,
        List.foldl, List.filter, h1, h2, h3, Ne.symm h1, Ne.symm h2, Ne.symm h3,
        beq_eq_false_iff_ne.mpr h1, beq_eq_false_iff_ne.mpr h2,
        beq_eq_false_iff_ne.mpr h3, beq_eq_false_iff_ne.mpr (Ne.symm h1),
        beq_eq_false_iff_ne.mpr (Ne.symm h2), beq_eq_false_iff_ne.mpr (Ne.symm h3)]

/-- Witness for C1 on a concrete 3-way split: with votes Healthy,
Deficient, Diseased the consensus is the Random Forest label Healthy. -/
theorem c1_tiebreak_is_rf_witness :
    consensus "Healthy" "Deficient" "Diseased" = "Healthy" :=
  c1_tiebreak_is_rf "Healthy" "Deficient" "Diseased"
    (by decide) (by decide) (by decide)

/-- C2: a label occurring at least twice among the three votes is the
consensus. -/
theorem c2_majority_wins (rf xgb svm x : String)
    (h : 2 ≤ countVotes [rf, xgb, svm] x) :
    consensus rf xgb svm = x := by
  by_cases hr : rf = x <;> by_cases hg : xgb = x <;> by_cases hs : svm = x
  · simp [consensus, mostCommon1, pickStep, counterKeys, insertKey, countVotes,
          List.foldl, List.filter, hr, hg, hs]
  · simp [consensus, mostCommon1, pickStep, counterKeys, insertKey, countVotes,
          List.foldl, List.filter, hr, hg, hs, Ne.symm hs,
          beq_eq_false_iff_ne.mpr hs, beq_eq_false_iff_ne.mpr (Ne.symm hs)]
  · simp [consensus, mostCommon1, pickStep, counterKeys, insertKey, countVotes,
          List.foldl, List.filter, hr, hs, hg, Ne.symm hg,
          beq_eq_false_iff_ne.mpr hg, beq_eq_false_iff_ne.mpr (Ne.symm hg)]
  · simp [countVotes, List.filter, hr, beq_eq_false_iff_ne.mpr hg,
          beq_eq_false_iff_ne.mpr hs] at h
  · simp [consensus, mostCommon1, pickStep, counterKeys, insertKey, countVotes,
          List.foldl, List.filter, hg, hs, hr, Ne.symm hr,
          beq_eq_false_iff_ne.mpr hr, beq_eq_false_iff_ne.mpr (Ne.symm hr)]
  · simp [countVotes, List.filter, hg, beq_eq_false_iff_ne.mpr hr,
          beq_eq_false_iff_ne.mpr hs] at h
  · simp [countVotes, List.filter, hs, beq_eq_false_iff_ne.mpr hr,
          beq_eq_false_iff_ne.mpr hg] at h
  · simp [countVotes, List.filter, beq_eq_false_iff_ne.mpr hr,
          beq_eq_false_iff_ne.mpr hg, beq_eq_false_iff_ne.mpr hs] at h

/-- Witness for C2 on the spec example: votes Healthy, Healthy,
Deficient give consensus Healthy. -/
theorem c2_majority_wins_witness :
    consensus "Healthy" "Healthy" "Deficient" = "Healthy" :=
  c2_majority_wins "Healthy" "Healthy" "Deficient" "Healthy" (by decide)

/-- C10: the consensus is always one of the three individual labels;
the verdict never shows a label no classifier voted for. -/
theorem c10_consensus_among_votes (rf xgb svm : String) :
    consensus rf xgb svm = rf ∨ consensus rf xgb svm = xgb ∨
    consensus rf xgb svm = svm := by
  obtain ⟨t, ht⟩ := foldl_insertKey_cons [xgb, svm] rf []
  have hkeys : counterKeys [rf, xgb, svm] = rf :: t := by
    unfold counterKeys
    rw [List.foldl_cons]
    have h0 : insertKey [] rf = [rf] := by simp [insertKey]
    rw [h0]
    exact ht
  obtain ⟨x, hx⟩ := pickFold_some [rf, xgb, svm] t rf
  have hm : mostCommon1 [rf, xgb, svm] = some x := by
    unfold mostCommon1
    rw [hkeys, List.foldl_cons]
    have h1 : pickStep [rf, xgb, svm] none rf = some rf := rfl
    rw [h1]
    exact hx
  have hmem : x ∈ [rf, xgb, svm] := mostCommon1_mem _ x hm
  have hc : consensus rf xgb svm = x := by
    unfold consensus
    rw [hm]
    rfl
  rw [hc]
  simpa using hmem

/-! ## Theorems about Simulation Mode -/

/-- Half-even rounding never goes below the floor. -/
theorem floor_le_roundHalfEven (q : ℚ) : ⌊q⌋ ≤ roundHalfEven q := by
  unfold roundHalfEven
  split_ifs <;> omega

/-- Half-even rounding never exceeds the ceiling. -/
theorem roundHalfEven_le_ceil (q : ℚ) : roundHalfEven q ≤ ⌈q⌉ := by
  have hfc : ⌊q⌋ ≤ ⌈q⌉ := Int.floor_le_ceil q
  have hup : (⌊q⌋ : ℚ) < q → ⌊q⌋ + 1 ≤ ⌈q⌉ := by
    intro hq
    have h1 : (⌊q⌋ : ℚ) < (⌈q⌉ : ℚ) := lt_of_lt_of_le hq (Int.le_ceil q)
    have h2 : ⌊q⌋ < ⌈q⌉ := by exact_mod_cast h1
    omega
  unfold roundHalfEven
  split_ifs with h1 h2 h3
  · exact hfc
  · exact hup (by linarith)
  · exact hfc
  · have hhalf : (1 : ℚ)/2 ≤ q - ⌊q⌋ := not_lt.mp h1
    exact hup (by linarith)

/-- Half-even rounding stays inside any integer interval containing the
argument. -/
theorem roundHalfEven_bounds (q : ℚ) (m M : ℤ)
    (hm : (m : ℚ) ≤ q) (hM : q ≤ M) :
    m ≤ roundHalfEven q ∧ roundHalfEven q ≤ M :=
  ⟨le_trans (Int.le_floor.mpr hm) (floor_le_roundHalfEven q),
   le_trans (roundHalfEven_le_ceil q) (Int.ceil_le.mpr hM)⟩

/-- Rounding to nd decimal digits stays inside any interval whose
endpoints are exact at nd digits. -/
theorem pyRound_bounds (q : ℚ) (nd : ℕ) (m M : ℤ)
    (hm : (m : ℚ) / 10 ^ nd ≤ q) (hM : q ≤ (M : ℚ) / 10 ^ nd) :
    (m : ℚ) / 10 ^ nd ≤ pyRound q nd ∧ pyRound q nd ≤ (M : ℚ) / 10 ^ nd := by
  have hpos : (0 : ℚ) < 10 ^ nd := by positivity
  have hm' : (m : ℚ) ≤ q * 10 ^ nd := by
    rw [div_le_iff₀ hpos] at hm
    exact hm
  have hM' : q * 10 ^ nd ≤ (M : ℚ) := by
    rw [le_div_iff₀ hpos] at hM
    exact hM
  obtain ⟨h1, h2⟩ := roundHalfEven_bounds (q * 10 ^ nd) m M hm' hM'
  unfold pyRound
  constructor
  · exact (div_le_div_iff_of_pos_right hpos).mpr (by exact_mod_cast h1)
  · exact (div_le_div_iff_of_pos_right hpos).mpr (by exact_mod_cast h2)

/-- C7: in Simulation Mode the acquisition always returns a Reading
(never None), and when each uniform draw lies in its documented bound
the corresponding rounded field also lies in that bound, the endpoints
being exact at each field's digit count. -/
theorem c7_simulation_in_bounds (cfg : Config) (env : Env)
    (ht1 : 22 ≤ env.sim.temperature) (ht2 : env.sim.temperature ≤ 35)
    (hm1 : 40 ≤ env.sim.moisture) (hm2 : env.sim.moisture ≤ 80)
    (hn1 : 100 ≤ env.sim.nitrogen) (hn2 : env.sim.nitrogen ≤ 250)
    (hp1 : 10 ≤ env.sim.phosphorus) (hp2 : env.sim.phosphorus ≤ 60)
    (hk1 : 150 ≤ env.sim.potassium) (hk2 : env.sim.potassium ≤ 300)
    (hh1 : 11/2 ≤ env.sim.pH) (hh2 : env.sim.pH ≤ 15/2)
    (hu1 : 60 ≤ env.sim.humidity) (hu2 : env.sim.humidity ≤ 90) :
    ∃ r : Reading, get_sensor_data "Simulation Mode" cfg env = some r ∧
      22 ≤ r.temperature ∧ r.temperature ≤ 35 ∧
      40 ≤ r.moisture ∧ r.moisture ≤ 80 ∧
      100 ≤ r.nitrogen ∧ r.nitrogen ≤ 250 ∧
      10 ≤ r.phosphorus ∧ r.phosphorus ≤ 60 ∧
      150 ≤ r.potassium ∧ r.potassium ≤ 300 ∧
      11/2 ≤ r.pH ∧ r.pH ≤ 15/2 ∧
      60 ≤ r.humidity ∧ r.humidity ≤ 90 := by
  refine ⟨get_sensor_data_sim env.sim, by simp [get_sensor_data], ?_⟩
  have bt := pyRound_bounds env.sim.temperature 1 220 350
    (by push_cast; linarith) (by push_cast; linarith)
  have bm := pyRound_bounds env.sim.moisture 1 400 800
    (by push_cast; linarith) (by push_cast; linarith)
  have bn := pyRound_bounds env.sim.nitrogen 0 100 250
    (by push_cast; linarith) (by push_cast; linarith)
  have bp := pyRound_bounds env.sim.phosphorus 0 10 60
    (by push_cast; linarith) (by push_cast; linarith)
  have bk := pyRound_bounds env.sim.potassium 0 150 300
    (by push_cast; linarith) (by push_cast; linarith)
  have bh := pyRound_bounds env.sim.pH 2 550 750
    (by push_cast; linarith) (by push_cast; linarith)
  have bu := pyRound_bounds env.sim.humidity 1 600 900
    (by push_cast; linarith) (by push_cast; linarith)
  push_cast at bt bm bn bp bk bh bu
  norm_num at bt bm bn bp bk bh bu
  simp only [get_sensor_data_sim]
  refine ⟨bt.1, bt.2, bm.1, bm.2, ?_, ?_, ?_, ?_, ?_, ?_, bh.1, bh.2, bu.1, bu.2⟩
  · simpa using bn.1
  · simpa using bn.2
  · simpa using bp.1
  · simpa using bp.2
  · simpa using bk.1
  · simpa using bk.2

/-- Witness for C7: a concrete in-bounds draw gives a Reading with all
fields in bounds. -/
theorem c7_simulation_in_bounds_witness :
    ∃ r : Reading,
      get_sensor_data "Simulation Mode"
        ⟨"COM3", 9600, 1, 3, "3187265", "", none⟩
        ⟨⟨28, 60, 170, 35, 220, 13/2, 75⟩, true, [], ⟨true, true, fun _ => some 100⟩⟩
        = some r ∧
      22 ≤ r.temperature ∧ r.temperature ≤ 35 ∧
      40 ≤ r.moisture ∧ r.moisture ≤ 80 ∧
      100 ≤ r.nitrogen ∧ r.nitrogen ≤ 250 ∧
      10 ≤ r.phosphorus ∧ r.phosphorus ≤ 60 ∧
      150 ≤ r.potassium ∧ r.potassium ≤ 300 ∧
      11/2 ≤ r.pH ∧ r.pH ≤ 15/2 ∧
      60 ≤ r.humidity ∧ r.humidity ≤ 90 :=
  c7_simulation_in_bounds _ _
    (by norm_num) (by norm_num) (by norm_num) (by norm_num) (by norm_num)
    (by norm_num) (by norm_num) (by norm_num) (by norm_num) (by norm_num)
    (by norm_num) (by norm_num) (by norm_num) (by norm_num)

/-! ## Theorems about the feature vector -/

/-- C5: for every Reading, the classifier input vector has exactly 6
entries in the fixed order Temperature, Moisture, Nitrogen, Phosphorus,
Potassium, pH; Humidity is not among them and every entry is the raw
field value with no clipping or imputation. -/
theorem c5_input_vector_shape (r : Reading) :
    (input_data r).length = 6 ∧
    input_data r = [r.temperature, r.moisture, r.nitrogen, r.phosphorus,
                    r.potassium, r.pH] ∧
    (input_data r)[0]? = some r.temperature ∧
    (input_data r)[1]? = some r.moisture ∧
    (input_data r)[2]? = some r.nitrogen ∧
    (input_data r)[3]? = some r.phosphorus ∧
    (input_data r)[4]? = some r.potassium ∧
    (input_data r)[5]? = some r.pH :=
  ⟨rfl, rfl, rfl, rfl, rfl, rfl, rfl, rfl⟩

/-! ## Theorems about Live Sensor Mode -/

/-- C6: the serial handle is closed exactly when the instrument was
created (driver import and serial open both succeeded); in particular
it is closed on the success path and whenever any of the 7 register
reads throws, and the finally guard skips the close only when no
instrument exists. -/
theorem c6_serial_closed_iff_created (env : LiveEnv) :
    (get_sensor_data_live env).snd = (env.driverAvailable && env.openOk) := by
  unfold get_sensor_data_live
  cases hd : env.driverAvailable <;> cases ho : env.openOk <;> simp [hd, ho]

/-! ## Theorems about ThingSpeak Cloud mode -/

/-- C4: in ThingSpeak Cloud mode, a successful response whose feeds
array is empty makes the acquisition return None (a failure), so no
zeroed Reading is produced. -/
theorem c4_empty_feeds_is_failure (cfg : Config) (env : Env)
    (hok : env.cloudOk = true) (hempty : env.cloudFeeds = []) :
    get_sensor_data "ThingSpeak Cloud" cfg env = none ∧
    ∀ r : Reading, get_sensor_data "ThingSpeak Cloud" cfg env ≠ some r := by
  have h : get_sensor_data "ThingSpeak Cloud" cfg env = none := by
    unfold get_sensor_data
    rw [if_neg (by decide), if_pos rfl, hok, hempty]
    simp [get_sensor_data_cloud]
  exact ⟨h, fun r hr => by rw [h] at hr; exact Option.noConfusion hr⟩

/-- Witness for C4: the concrete empty-feed environment yields None. -/
theorem c4_empty_feeds_is_failure_witness :
    get_sensor_data "ThingSpeak Cloud"
      ⟨"COM3", 9600, 1, 3, "3187265", "", none⟩
      ⟨⟨28, 60, 170, 35, 220, 13/2, 75⟩, true, [], ⟨true, true, fun _ => some 100⟩⟩
      = none :=
  (c4_empty_feeds_is_failure _ _ rfl rfl).1

/-- C3 counterexample: with a non-empty feed, a full mapping and a pH
source value that is the non-numeric string n/a, the code does not set
pH to 0.0 and return the Reading as the claim states: float raises and
the except clause fails the whole acquisition, returning None. -/
theorem c3_counterexample_nonnumeric_fails_whole_reading :
    get_sensor_data_cloud [sampleBadPH] (some stdMapping) = none := by
  rfl

/-- C3 (amended): with a non-empty feed and a full mapping, provided
every canonical field's mapped source value resolves (an unresolved or
empty value resolves to 0.0, a present value by parsing as a number),
the acquisition returns a Reading rather than failing as a whole, and
in that Reading every canonical field whose mapped source value is
unresolved (absent) is 0.0 - whichever and however many of the seven
fields are unresolved; a present non-numeric value instead fails the
whole acquisition. -/
theorem c3_unresolved_fields_default_zero (feeds : List Sample)
    (latest : Sample) (mp : Mapping)
    (hlast : feeds.getLast? = some latest)
    (ht : cloudFieldVal latest mp.temperature ≠ none)
    (hm : cloudFieldVal latest mp.moisture ≠ none)
    (hn : cloudFieldVal latest mp.nitrogen ≠ none)
    (hp : cloudFieldVal latest mp.phosphorus ≠ none)
    (hk : cloudFieldVal latest mp.potassium ≠ none)
    (hph : cloudFieldVal latest mp.pH ≠ none)
    (hh : cloudFieldVal latest mp.humidity ≠ none) :
    ∃ r : Reading, get_sensor_data_cloud feeds (some mp) = some r ∧
      (sampleGet latest mp.temperature = none → r.temperature = 0) ∧
      (sampleGet latest mp.moisture = none → r.moisture = 0) ∧
      (sampleGet latest mp.nitrogen = none → r.nitrogen = 0) ∧
      (sampleGet latest mp.phosphorus = none → r.phosphorus = 0) ∧
      (sampleGet latest mp.potassium = none → r.potassium = 0) ∧
      (sampleGet latest mp.pH = none → r.pH = 0) ∧
      (sampleGet latest mp.humidity = none → r.humidity = 0) := by
  obtain ⟨vt, hvt⟩ := Option.ne_none_iff_exists'.mp ht
  obtain ⟨vm, hvm⟩ := Option.ne_none_iff_exists'.mp hm
  obtain ⟨vn, hvn⟩ := Option.ne_none_iff_exists'.mp hn
  obtain ⟨vp, hvp⟩ := Option.ne_none_iff_exists'.mp hp
  obtain ⟨vk, hvk⟩ := Option.ne_none_iff_exists'.mp hk
  obtain ⟨vph, hvph⟩ := Option.ne_none_iff_exists'.mp hph
  obtain ⟨vh, hvh⟩ := Option.ne_none_iff_exists'.mp hh
  refine ⟨{ temperature := vt, moisture := vm, nitrogen := vn,
            phosphorus := vp, potassium := vk, pH := vph, humidity := vh },
          ?_, ?_, ?_, ?_, ?_, ?_, ?_, ?_⟩
  · simp [get_sensor_data_cloud, hlast, hvt, hvm, hvn, hvp, hvk, hvph, hvh]
  · intro habs
    have h0 : cloudFieldVal latest mp.temperature = some 0 := by
      simp [cloudFieldVal, habs]
    exact Option.some.inj (hvt.symm.trans h0)
  · intro habs
    have h0 : cloudFieldVal latest mp.moisture = some 0 := by
      simp [cloudFieldVal, habs]
    exact Option.some.inj (hvm.symm.trans h0)
  · intro habs
    have h0 : cloudFieldVal latest mp.nitrogen = some 0 := by
      simp [cloudFieldVal, habs]
    exact Option.some.inj (hvn.symm.trans h0)
  · intro habs
    have h0 : cloudFieldVal latest mp.phosphorus = some 0 := by
      simp [cloudFieldVal, habs]
    exact Option.some.inj (hvp.symm.trans h0)
  · intro habs
    have h0 : cloudFieldVal latest mp.potassium = some 0 := by
      simp [cloudFieldVal, habs]
    exact Option.some.inj (hvk.symm.trans h0)
  · intro habs
    have h0 : cloudFieldVal latest mp.pH = some 0 := by
      simp [cloudFieldVal, habs]
    exact Option.some.inj (hvph.symm.trans h0)
  · intro habs
    have h0 : cloudFieldVal latest mp.humidity = some 0 := by
      simp [cloudFieldVal, habs]
    exact Option.some.inj (hvh.symm.trans h0)

/-- Witness for C3 (amended): a feed entry without field1 gives a
Reading, and its Temperature (the one unresolved field) is 0.0. -/
theorem c3_unresolved_fields_default_zero_witness :
    ∃ r : Reading,
      get_sensor_data_cloud [sampleNoTemp] (some stdMapping) = some r ∧
      (sampleGet sampleNoTemp stdMapping.temperature = none →
        r.temperature = 0) ∧
      (sampleGet sampleNoTemp stdMapping.moisture = none → r.moisture = 0) ∧
      (sampleGet sampleNoTemp stdMapping.nitrogen = none → r.nitrogen = 0) ∧
      (sampleGet sampleNoTemp stdMapping.phosphorus = none →
        r.phosphorus = 0) ∧
      (sampleGet sampleNoTemp stdMapping.potassium = none →
        r.potassium = 0) ∧
      (sampleGet sampleNoTemp stdMapping.pH = none → r.pH = 0) ∧
      (sampleGet sampleNoTemp stdMapping.humidity = none → r.humidity = 0) :=
  c3_unresolved_fields_default_zero [sampleNoTemp] sampleNoTemp stdMapping rfl
    (fun h => Option.noConfusion h) (fun h => Option.noConfusion h)
    (fun h => Option.noConfusion h) (fun h => Option.noConfusion h)
    (fun h => Option.noConfusion h) (fun h => Option.noConfusion h)
    (fun h => Option.noConfusion h)

/-! ## Theorems about the dispatcher -/

/-- C8 counterexample: a mode string outside the three variants matches
no adapter and silently yields None through the implicit fallthrough of
the if/elif chain, contradicting the no-silent-fallthrough claim. -/
theorem c8_counterexample_silent_fallthrough :
    dispatchChoice "Offline Mode" = AdapterChoice.fallthrough ∧
    get_sensor_data "Offline Mode" exampleConfig exampleEnv = none := by
  exact ⟨rfl, rfl⟩

/-- C8 (amended): each of the three recognized mode strings selects
exactly its adapter, forwarding the configuration unchanged and
returning the adapter's result unmodified; any other mode string
silently returns None. -/
theorem c8_dispatch_routes (cfg : Config) (env : Env) :
    dispatchChoice "Simulation Mode" = AdapterChoice.sim ∧
    dispatchChoice "ThingSpeak Cloud" = AdapterChoice.cloud ∧
    dispatchChoice "Live Sensor Mode" = AdapterChoice.live ∧
    get_sensor_data "Simulation Mode" cfg env =
      some (get_sensor_data_sim env.sim) ∧
    get_sensor_data "ThingSpeak Cloud" cfg env =
      (if env.cloudOk then get_sensor_data_cloud env.cloudFeeds cfg.mapping
       else none) ∧
    get_sensor_data "Live Sensor Mode" cfg env =
      (get_sensor_data_live env.live).fst ∧
    ∀ mode : String, mode ≠ "Simulation Mode" → mode ≠ "ThingSpeak Cloud" →
      mode ≠ "Live Sensor Mode" → get_sensor_data mode cfg env = none := by
  refine ⟨rfl, rfl, rfl, ?_, ?_, ?_, ?_⟩
  · unfold get_sensor_data
    rw [if_pos rfl]
  · unfold get_sensor_data
    rw [if_neg (by decide), if_pos rfl]
  · unfold get_sensor_data
    rw [if_neg (by decide), if_neg (by decide), if_pos rfl]
  · intro mode h1 h2 h3
    unfold get_sensor_data
    rw [if_neg h1, if_neg h2, if_neg h3]

/-- Witness for C8: an unknown mode string gives None. -/
theorem c8_dispatch_routes_witness :
    get_sensor_data "Custom Mode" exampleConfig exampleEnv = none :=
  (c8_dispatch_routes exampleConfig exampleEnv).2.2.2.2.2.2 "Custom Mode"
    (by decide) (by decide) (by decide)

/-! ## Theorems about the trend history -/

/-- Appending one element to a non-empty list and popping the front
commute. -/
theorem tail_append_singleton {α : Type} (l : List α) (x : α)
    (hne : l ≠ []) : (l ++ [x]).tail = l.tail ++ [x] := by
  cases l with
  | nil => exact absurd rfl hne
  | cons a l => rfl

/-- C9: starting from equal-length lists of at most 30 entries, one
history update keeps every list at 30 entries or fewer, and when the
lists were exactly at capacity the oldest entry of every list is
evicted, so the previous 2nd-oldest entry becomes the new head. -/
theorem c9_history_capacity (h : History) (sv : Reading) (t : String)
    (hn : h.n.length = h.time.length) (hp : h.p.length = h.time.length)
    (hph : h.ph.length = h.time.length) (hcap : h.time.length ≤ 30) :
    ((updateHistory h sv t).time.length ≤ 30 ∧
     (updateHistory h sv t).n.length ≤ 30 ∧
     (updateHistory h sv t).p.length ≤ 30 ∧
     (updateHistory h sv t).ph.length ≤ 30) ∧
    (h.time.length = 30 →
      (updateHistory h sv t).time = h.time.tail ++ [t] ∧
      (updateHistory h sv t).n = h.n.tail ++ [sv.nitrogen] ∧
      (updateHistory h sv t).p = h.p.tail ++ [sv.phosphorus] ∧
      (updateHistory h sv t).ph = h.ph.tail ++ [sv.pH]) := by
  by_cases hc : (h.time ++ [t]).length > 30
  case pos =>
    have h30 : h.time.length = 30 := by
      have hh := hc
      simp only [List.length_append, List.length_singleton] at hh
      omega
    have hne : h.time ≠ [] := by
      intro he
      rw [he] at h30
      simp at h30
    have hnne : h.n ≠ [] := by
      intro he
      rw [he] at hn
      simp at hn
      omega
    have hpne : h.p ≠ [] := by
      intro he
      rw [he] at hp
      simp at hp
      omega
    have hphne : h.ph ≠ [] := by
      intro he
      rw [he] at hph
      simp at hph
      omega
    simp only [updateHistory, if_pos hc]
    constructor
    · refine ⟨?_, ?_, ?_, ?_⟩ <;> simp <;> omega
    · intro _
      exact ⟨tail_append_singleton _ _ hne, tail_append_singleton _ _ hnne,
             tail_append_singleton _ _ hpne, tail_append_singleton _ _ hphne⟩
  case neg =>
    have hle : h.time.length + 1 ≤ 30 := by
      have hh := hc
      simp only [List.length_append, List.length_singleton, gt_iff_lt,
                 not_lt] at hh
      omega
    simp only [updateHistory, if_neg hc]
    constructor
    · refine ⟨?_, ?_, ?_, ?_⟩ <;> simp <;> omega
    · intro h30
      omega

/-- Witness for C9: appending to a full 30-entry history evicts the
oldest time entry and appends the new one at the back. -/
theorem c9_history_capacity_witness :
    (updateHistory histFull
        { temperature := 25, moisture := 50, nitrogen := 120,
          phosphorus := 20, potassium := 200, pH := 6, humidity := 70 }
        "10:00:31").time = histFull.time.tail ++ ["10:00:31"] :=
  ((c9_history_capacity histFull
      { temperature := 25, moisture := 50, nitrogen := 120,
        phosphorus := 20, potassium := 200, pH := 6, humidity := 70 }
      "10:00:31" (by simp [histFull]) (by simp [histFull]) (by simp [histFull])
      (by simp [histFull])).2 (by simp [histFull])).1
